import Mathlib

/-!
# Verification of the regime-aware tactical scanning and scoring pipeline

Shallow embedding of the decision core of the `analisis-tecnico` repository:

* `tactical_radars.py` — benchmark regime classification
  (`determine_market_regime`), the five tactical radars, the regime
  dispatch of `run_tactical_scan`, and the per-ticker metrics loop
  (`calculate_tactical_metrics`);
* `market_radar.py` — breakout reference levels in
  `calculate_radar_metrics` and the candidate scoring / confidence
  tiers of `calculate_candidate_score`;
* `svga_system.py` — the per-asset signal cascade of `generate_signals`;
* `alertas_avanzadas.py` — the volatility-spike detector
  `_detectar_volatilidad_anormal`.

Machine floats are modelled by `ℚ`; the properties at stake are order
comparisons and piecewise-affine arithmetic, which floats and rationals
decide identically on the ranges involved.
-/

namespace TacticalRadars

/-- Market regime as produced by `determine_market_regime`
(`'ALCISTA'`, `'BAJISTA'`, `'LATERAL'`, or `'UNKNOWN'` on the error path). -/
inductive Regime
  | ALCISTA
  | BAJISTA
  | LATERAL
  | UNKNOWN
  deriving DecidableEq, Repr

/-- Trading signal accompanying the regime
(`'COMPRAR'`, `'VENDER'`, `'MANTENER'`). -/
inductive Senal
  | COMPRAR
  | VENDER
  | MANTENER
  deriving DecidableEq, Repr

/-- The benchmark values read at the latest bar in
`determine_market_regime` (tactical_radars.py lines 119-124):
closing price, EMA 50, the long EMA (column `EMA_100`), the MACD
histogram and the ADX. -/
structure BenchLatest where
  price : ℚ
  ema_50 : ℚ
  EMA_100 : ℚ
  macd_hist : ℚ
  adx : ℚ
  deriving DecidableEq, Repr

/-- The mutable triple `(regime, signal, confidence)` threaded through
`determine_market_regime`. -/
structure RegimeState where
  regime : Regime
  signal : Senal
  confidence : ℚ
  deriving DecidableEq, Repr

/-- Trend block of `determine_market_regime`
(tactical_radars.py lines 126-159): starting from
`regime = "LATERAL"`, `signal = "MANTENER"`, `confidence = 0`,
compare price with the two EMAs. -/
def trendAnalysis (b : BenchLatest) : RegimeState :=
  if b.price > b.EMA_100 then
    let confidence : ℚ := 0 + 30
    let confidence := if b.price > b.ema_50 then confidence + 20 else confidence
    if b.ema_50 > b.EMA_100 then
      { regime := Regime.ALCISTA, signal := Senal.COMPRAR, confidence := confidence + 20 }
    else
      { regime := Regime.LATERAL, signal := Senal.MANTENER, confidence := confidence }
  else if b.price < b.EMA_100 then
    let confidence : ℚ := 0 + 30
    let confidence := if b.price < b.ema_50 then confidence + 20 else confidence
    if b.ema_50 < b.EMA_100 then
      { regime := Regime.BAJISTA, signal := Senal.VENDER, confidence := confidence + 20 }
    else
      { regime := Regime.LATERAL, signal := Senal.MANTENER, confidence := confidence }
  else
    { regime := Regime.LATERAL, signal := Senal.MANTENER, confidence := 0 }

/-- Momentum block of `determine_market_regime`
(tactical_radars.py lines 161-169): a positive MACD histogram adds 15
confidence only in an `ALCISTA` regime, a negative one only in a
`BAJISTA` regime. -/
def momentumAnalysis (b : BenchLatest) (st : RegimeState) : RegimeState :=
  if b.macd_hist > 0 then
    if st.regime = Regime.ALCISTA then { st with confidence := st.confidence + 15 } else st
  else if b.macd_hist < 0 then
    if st.regime = Regime.BAJISTA then { st with confidence := st.confidence + 15 } else st
  else st

/-- ADX block of `determine_market_regime`
(tactical_radars.py lines 171-179): `ADX < 20` forces a lateral regime
and rescales confidence to `max(confidence * 0.5, 40)`; `ADX > 25`
adds 15 confidence and leaves regime and signal untouched. -/
def adxAnalysis (b : BenchLatest) (st : RegimeState) : RegimeState :=
  if b.adx < 20 then
    { regime := Regime.LATERAL, signal := Senal.MANTENER,
      confidence := max (st.confidence * (1/2)) 40 }
  else if b.adx > 25 then
    { st with confidence := st.confidence + 15 }
  else st

/-- `determine_market_regime` (tactical_radars.py lines 126-182), the
success path after indicators are available: trend block, momentum
block, ADX block, then `confidence = min(confidence, 100)`. -/
def determine_market_regime (b : BenchLatest) : RegimeState :=
  let st := momentumAnalysis b (trendAnalysis b)
  let st := adxAnalysis b st
  { st with confidence := min st.confidence 100 }

theorem trend_confidence_bounds (b : BenchLatest) :
    0 ≤ (trendAnalysis b).confidence ∧ (trendAnalysis b).confidence ≤ 70 := by
  simp only [trendAnalysis]
  split_ifs <;> norm_num

theorem momentum_confidence_bounds (b : BenchLatest) (st : RegimeState) :
    st.confidence ≤ (momentumAnalysis b st).confidence ∧
    (momentumAnalysis b st).confidence ≤ st.confidence + 15 := by
  simp only [momentumAnalysis]
  split_ifs <;> refine ⟨?_, ?_⟩ <;> dsimp only <;> linarith

theorem momentum_preserves_regime (b : BenchLatest) (st : RegimeState) :
    (momentumAnalysis b st).regime = st.regime ∧
    (momentumAnalysis b st).signal = st.signal := by
  simp only [momentumAnalysis]
  split_ifs <;> simp

/-- Confidence accumulated before the ADX block is between 0 and 85. -/
theorem preAdx_confidence_bounds (b : BenchLatest) :
    0 ≤ (momentumAnalysis b (trendAnalysis b)).confidence ∧
    (momentumAnalysis b (trendAnalysis b)).confidence ≤ 85 := by
  obtain ⟨h0, h70⟩ := trend_confidence_bounds b
  obtain ⟨hlo, hhi⟩ := momentum_confidence_bounds b (trendAnalysis b)
  constructor <;> linarith

/-- C1: for every benchmark bar series accepted by the regime
classifier, the confidence in the returned Regime Record lies in
[0, 100]. -/
theorem confidence_in_unit_range (b : BenchLatest) :
    0 ≤ (determine_market_regime b).confidence ∧
    (determine_market_regime b).confidence ≤ 100 := by
  obtain ⟨h0, h85⟩ := preAdx_confidence_bounds b
  simp only [determine_market_regime, adxAnalysis]
  split_ifs with h1 h2
  · exact ⟨le_min (le_max_of_le_right (by norm_num)) (by norm_num), min_le_right _ _⟩
  · exact ⟨le_min (by dsimp only; linarith) (by norm_num), min_le_right _ _⟩
  · exact ⟨le_min h0 (by norm_num), min_le_right _ _⟩

/-- C2: if the latest ADX is below 20 the classifier forces regime
`LATERAL` and signal `MANTENER` and replaces the accumulated
confidence by `max(confidence * 0.5, 40)`; if the latest ADX is above
25 it leaves regime and signal unchanged and adds 15 to the
confidence (subject to the final clamp at 100). -/
theorem adx_override (b : BenchLatest) :
    (b.adx < 20 →
      (determine_market_regime b).regime = Regime.LATERAL ∧
      (determine_market_regime b).signal = Senal.MANTENER ∧
      (determine_market_regime b).confidence =
        max ((momentumAnalysis b (trendAnalysis b)).confidence * (1/2)) 40) ∧
    (b.adx > 25 →
      (determine_market_regime b).regime = (trendAnalysis b).regime ∧
      (determine_market_regime b).signal = (trendAnalysis b).signal ∧
      (determine_market_regime b).confidence =
        min ((momentumAnalysis b (trendAnalysis b)).confidence + 15) 100) := by
  obtain ⟨h0, h85⟩ := preAdx_confidence_bounds b
  obtain ⟨hreg, hsig⟩ := momentum_preserves_regime b (trendAnalysis b)
  constructor
  · intro h
    have hle : max ((momentumAnalysis b (trendAnalysis b)).confidence * (1/2)) 40 ≤ 100 :=
      max_le (by linarith) (by norm_num)
    refine ⟨?_, ?_, ?_⟩
    · simp [determine_market_regime, adxAnalysis, if_pos h]
    · simp [determine_market_regime, adxAnalysis, if_pos h]
    · simp only [determine_market_regime, adxAnalysis, if_pos h]
      exact min_eq_left hle
  · intro h
    have h20 : ¬ b.adx < 20 := by linarith
    refine ⟨?_, ?_, ?_⟩
    · simp only [determine_market_regime, adxAnalysis, if_neg h20, if_pos h]
      exact hreg
    · simp only [determine_market_regime, adxAnalysis, if_neg h20, if_pos h]
      exact hsig
    · simp only [determine_market_regime, adxAnalysis, if_neg h20, if_pos h]

/-- Witness for C2 at concrete benchmarks: ADX 10 on a golden-cross
series, and ADX 30 on the same series. -/
theorem adx_override_witness :
    ((determine_market_regime ⟨110, 105, 100, 1, 10⟩).regime = Regime.LATERAL ∧
      (determine_market_regime ⟨110, 105, 100, 1, 10⟩).signal = Senal.MANTENER ∧
      (determine_market_regime ⟨110, 105, 100, 1, 10⟩).confidence =
        max ((momentumAnalysis ⟨110, 105, 100, 1, 10⟩
          (trendAnalysis ⟨110, 105, 100, 1, 10⟩)).confidence * (1/2)) 40) ∧
    ((determine_market_regime ⟨110, 105, 100, 1, 30⟩).regime =
        (trendAnalysis ⟨110, 105, 100, 1, 30⟩).regime ∧
      (determine_market_regime ⟨110, 105, 100, 1, 30⟩).signal =
        (trendAnalysis ⟨110, 105, 100, 1, 30⟩).signal ∧
      (determine_market_regime ⟨110, 105, 100, 1, 30⟩).confidence =
        min ((momentumAnalysis ⟨110, 105, 100, 1, 30⟩
          (trendAnalysis ⟨110, 105, 100, 1, 30⟩)).confidence + 15) 100) :=
  ⟨(adx_override ⟨110, 105, 100, 1, 10⟩).1 (by norm_num),
   (adx_override ⟨110, 105, 100, 1, 30⟩).2 (by norm_num)⟩

/-- One row of the tactical universe metrics table: the dict appended
per ticker at tactical_radars.py lines 505-519. -/
structure AssetMetrics where
  ticker : String
  precio : ℚ
  precio_prev : ℚ
  ema_20 : ℚ
  ema_20_prev : ℚ
  ema_50 : ℚ
  EMA_100 : ℚ
  rsi : ℚ
  macd_hist : ℚ
  macd_hist_prev : ℚ
  adx : ℚ
  volume : ℚ
  volume_sma_20 : ℚ
  deriving DecidableEq, Repr

/-- A row of a radar's output table: the input row plus the `radar`
tag and `score` columns each radar adds. -/
structure Candidate where
  metrics : AssetMetrics
  radar : String
  score : ℚ
  deriving DecidableEq, Repr

/-- `radar_1_reversion_alcista` (tactical_radars.py lines 280-305). -/
def radar_1_reversion_alcista (df_metrics : List AssetMetrics) : List Candidate :=
  (df_metrics.filter fun m =>
      decide (m.precio > m.EMA_100 ∧ m.precio < m.ema_50 ∧ m.rsi < 40)).map
    fun m =>
      { metrics := m, radar := "Reversion Alcista",
        score := 50 + (40 - m.rsi) * 1 + ((m.EMA_100 - m.precio) / m.precio * 100) * 2 }

/-- `radar_2_ignicion_momentum` (tactical_radars.py lines 307-334). -/
def radar_2_ignicion_momentum (df_metrics : List AssetMetrics) : List Candidate :=
  (df_metrics.filter fun m =>
      decide (m.macd_hist > 0 ∧ m.macd_hist < 1 ∧ m.macd_hist_prev ≤ 0 ∧
        m.adx > 20 ∧ m.rsi > 50)).map
    fun m =>
      { metrics := m, radar := "Ignicion Momentum",
        score := 60 + (m.adx - 20) * (3/2) + (m.rsi - 50) * (1/2) }

/-- `radar_3_reversion_bajista` (tactical_radars.py lines 336-361). -/
def radar_3_reversion_bajista (df_metrics : List AssetMetrics) : List Candidate :=
  (df_metrics.filter fun m =>
      decide (m.precio < m.EMA_100 ∧ m.precio > m.ema_50 ∧ m.rsi > 60)).map
    fun m =>
      { metrics := m, radar := "Reversion Bajista",
        score := 50 + (m.rsi - 60) * 1 + ((m.precio - m.EMA_100) / m.precio * 100) * 2 }

/-- `radar_4_ruptura_bajista` (tactical_radars.py lines 363-390). -/
def radar_4_ruptura_bajista (df_metrics : List AssetMetrics) : List Candidate :=
  (df_metrics.filter fun m =>
      decide (m.macd_hist < 0 ∧ m.macd_hist > -1 ∧ m.macd_hist_prev ≥ 0 ∧
        m.adx > 20 ∧ m.rsi < 50)).map
    fun m =>
      { metrics := m, radar := "Ruptura Bajista",
        score := 60 + (m.adx - 20) * (3/2) + (50 - m.rsi) * (1/2) }

/-- The `ema_crosses` indicator column added inside
`radar_5_mercado_lateral` (lines 410-413), already an integer 0/1. -/
def ema_crosses (m : AssetMetrics) : ℚ :=
  if (m.precio > m.ema_20 ∧ m.precio_prev ≤ m.ema_20_prev) ∨
     (m.precio < m.ema_20 ∧ m.precio_prev ≥ m.ema_20_prev) then 1 else 0

/-- `radar_5_mercado_lateral` (tactical_radars.py lines 392-424). -/
def radar_5_mercado_lateral (df_metrics : List AssetMetrics) : List Candidate :=
  (df_metrics.filter fun m =>
      decide (m.adx < 20 ∧ m.rsi > 35 ∧ m.rsi < 65)).map
    fun m =>
      { metrics := m, radar := "Mercado Lateral",
        score := 40 + (20 - m.adx) * 2 + |50 - m.rsi| * (-(1/2)) + ema_crosses m * 10 }

/-- The scan logic of `run_tactical_scan` (tactical_radars.py lines
550-645) after the regime has been classified and the universe metrics
computed: short-circuit on `UNKNOWN`, concatenate the outputs of the
radars matching the regime, sort descending by score and truncate to
`max_candidates`. -/
def run_tactical_scan (regime : Regime) (df_metrics : List AssetMetrics)
    (max_candidates : Nat) : List Candidate :=
  if regime = Regime.UNKNOWN then []
  else
    let all_candidates :=
      if regime = Regime.ALCISTA then
        radar_1_reversion_alcista df_metrics ++ radar_2_ignicion_momentum df_metrics
      else if regime = Regime.BAJISTA then
        radar_3_reversion_bajista df_metrics ++ radar_4_ruptura_bajista df_metrics
      else
        radar_5_mercado_lateral df_metrics
    (all_candidates.mergeSort fun a b => decide (b.score ≤ a.score)).take max_candidates

/-- C3: under an `ALCISTA` regime every candidate the scan returns comes
from radar 1 or radar 2; when the truncation limit is not binding the
scan's candidate set is exactly the union of the outputs of radars 1
and 2; under an `UNKNOWN` regime the scan returns the empty list. -/
theorem bullish_dispatch (df : List AssetMetrics) (m : Nat) (c : Candidate) :
    (c ∈ run_tactical_scan Regime.ALCISTA df m →
      c ∈ radar_1_reversion_alcista df ∨ c ∈ radar_2_ignicion_momentum df) ∧
    ((radar_1_reversion_alcista df ++ radar_2_ignicion_momentum df).length ≤ m →
      (c ∈ run_tactical_scan Regime.ALCISTA df m ↔
        c ∈ radar_1_reversion_alcista df ∨ c ∈ radar_2_ignicion_momentum df)) ∧
    run_tactical_scan Regime.UNKNOWN df m = [] := by
  have hrun : run_tactical_scan Regime.ALCISTA df m =
      ((radar_1_reversion_alcista df ++ radar_2_ignicion_momentum df).mergeSort
        fun a b => decide (b.score ≤ a.score)).take m := rfl
  refine ⟨?_, ?_, rfl⟩
  · intro hc
    rw [hrun] at hc
    exact List.mem_append.mp (List.mem_mergeSort.mp (List.mem_of_mem_take hc))
  · intro hlen
    rw [hrun, List.take_of_length_le (by rw [List.length_mergeSort]; exact hlen),
      List.mem_mergeSort, List.mem_append]

/-- The single-ticker universe used to witness C3: it passes radar 1's
filter and no other radar's. -/
def demoMetric : AssetMetrics :=
  ⟨"AAA", 105, 104, 104, 103, 110, 100, 30, 5, 5, 30, 1000, 900⟩

/-- The candidate row radar 1 produces from `demoMetric`. -/
def demoCandidate : Candidate :=
  { metrics := demoMetric, radar := "Reversion Alcista",
    score := 50 + (40 - demoMetric.rsi) * 1 +
      ((demoMetric.EMA_100 - demoMetric.precio) / demoMetric.precio * 100) * 2 }

/-- Witness for C3 on the concrete one-ticker universe. -/
theorem bullish_dispatch_witness :
    (demoCandidate ∈ radar_1_reversion_alcista [demoMetric] ∨
      demoCandidate ∈ radar_2_ignicion_momentum [demoMetric]) ∧
    (demoCandidate ∈ run_tactical_scan Regime.ALCISTA [demoMetric] 15 ↔
      demoCandidate ∈ radar_1_reversion_alcista [demoMetric] ∨
        demoCandidate ∈ radar_2_ignicion_momentum [demoMetric]) :=
  have h1 : demoCandidate ∈ radar_1_reversion_alcista [demoMetric] :=
    List.mem_map.mpr
      ⟨demoMetric, List.mem_filter.mpr ⟨List.mem_cons_self _ _, by decide⟩, rfl⟩
  have hiff := (bullish_dispatch [demoMetric] 15 demoCandidate).2.1 (by decide)
  ⟨(bullish_dispatch [demoMetric] 15 demoCandidate).1 (hiff.mpr (Or.inl h1)), hiff⟩

/-- One OHLCV bar of a ticker's downloaded history. -/
structure Bar where
  high : ℚ
  low : ℚ
  close : ℚ
  volume : ℚ
  deriving DecidableEq, Repr

/-- Input of one iteration of the `calculate_tactical_metrics` loop
(tactical_radars.py lines 435-522).  The pandas_ta indicator internals
are outside the embedding, so the two quantities the control flow
reads from them are carried as fields: `rowsAfterDropna` models
`len(df)` after the indicator columns are added and `df.dropna()` is
applied, and `raisesError` models whether anything in the `try` body
raises (caught by the bare `except` at lines 521-522). `row` is the
metrics dict appended on success (lines 505-519). -/
structure TickerSeries where
  ticker : String
  bars : List Bar
  rowsAfterDropna : Nat
  raisesError : Bool
  row : AssetMetrics
  deriving DecidableEq, Repr

/-- Body of one loop iteration of `calculate_tactical_metrics`: skip
when the `try` body raises, when the series is empty or shorter than
80 bars, or when fewer than 2 rows survive `dropna`; otherwise append
the ticker's metrics row. -/
def processTicker (t : TickerSeries) : Option AssetMetrics :=
  if t.raisesError then none
  else if t.bars.length < 80 then none
  else if t.rowsAfterDropna < 2 then none
  else some t.row

/-- `calculate_tactical_metrics` (tactical_radars.py lines 426-527):
the per-ticker loop collecting one metrics row per surviving ticker. -/
def calculate_tactical_metrics (tickers : List TickerSeries) : List AssetMetrics :=
  tickers.filterMap processTicker

theorem processTicker_eq_none (t : TickerSeries)
    (h : t.bars.length < 80 ∨ t.raisesError = true) : processTicker t = none := by
  unfold processTicker
  split_ifs with h1 h2 h3 <;> try rfl
  rcases h with h | h
  · exact absurd h h2
  · exact absurd h h1

theorem processTicker_eq_some (t : TickerSeries)
    (h : (processTicker t).isSome) : processTicker t = some t.row := by
  unfold processTicker at h ⊢
  split_ifs at h ⊢ <;> simp_all

theorem filterMap_processTicker_all_some :
    ∀ l : List TickerSeries, (∀ t ∈ l, (processTicker t).isSome) →
      l.filterMap processTicker = l.map TickerSeries.row
  | [], _ => rfl
  | t :: l, h => by
    have ht := processTicker_eq_some t (h t (List.mem_cons_self t l))
    have hl := filterMap_processTicker_all_some l fun u hu => h u (List.mem_cons_of_mem t hu)
    simp [List.filterMap_cons, ht, hl]

/-- C9: a universe of one failing ticker (empty or too-short series,
or an error raised during the indicator computation) among otherwise
valid tickers yields rows for exactly the valid tickers, in order; the
failing ticker is dropped and the batch continues. -/
theorem partial_failure_tolerance (pre post : List TickerSeries) (bad : TickerSeries)
    (hbad : bad.bars.length < 80 ∨ bad.raisesError = true)
    (hgood : ∀ t ∈ pre ++ post, (processTicker t).isSome) :
    calculate_tactical_metrics (pre ++ bad :: post) =
      (pre ++ post).map TickerSeries.row ∧
    (calculate_tactical_metrics (pre ++ bad :: post)).length =
      pre.length + post.length := by
  have hpre : ∀ t ∈ pre, (processTicker t).isSome := fun t ht =>
    hgood t (List.mem_append_left _ ht)
  have hpost : ∀ t ∈ post, (processTicker t).isSome := fun t ht =>
    hgood t (List.mem_append_right _ ht)
  have heq : calculate_tactical_metrics (pre ++ bad :: post) =
      (pre ++ post).map TickerSeries.row := by
    unfold calculate_tactical_metrics
    rw [List.filterMap_append, List.filterMap_cons, processTicker_eq_none bad hbad,
      filterMap_processTicker_all_some pre hpre,
      filterMap_processTicker_all_some post hpost, List.map_append]
  refine ⟨heq, ?_⟩
  rw [heq]
  simp

/-- A valid ticker for the C9 witness: 80 bars, 2 rows after dropna. -/
def goodTicker : TickerSeries :=
  ⟨"GOOD", List.replicate 80 ⟨10, 9, 10, 100⟩, 2, false,
    ⟨"GOOD", 10, 10, 10, 10, 10, 10, 50, 0, 0, 20, 100, 100⟩⟩

/-- A second valid ticker for the C9 witness. -/
def goodTicker2 : TickerSeries :=
  ⟨"GOOD2", List.replicate 80 ⟨20, 19, 20, 200⟩, 2, false,
    ⟨"GOOD2", 20, 20, 20, 20, 20, 20, 50, 0, 0, 20, 200, 200⟩⟩

/-- The failing ticker for the C9 witness: an empty series. -/
def badTicker : TickerSeries :=
  ⟨"BAD", [], 0, false, ⟨"BAD", 0, 0, 0, 0, 0, 0, 0, 0, 0, 0, 0, 0⟩⟩

/-- Witness for C9: a 3-ticker universe whose middle ticker has an
empty series yields exactly the two valid rows. -/
theorem partial_failure_tolerance_witness :
    calculate_tactical_metrics ([goodTicker] ++ badTicker :: [goodTicker2]) =
      ([goodTicker] ++ [goodTicker2]).map TickerSeries.row ∧
    (calculate_tactical_metrics ([goodTicker] ++ badTicker :: [goodTicker2])).length =
      [goodTicker].length + [goodTicker2].length :=
  partial_failure_tolerance [goodTicker] [goodTicker2] badTicker
    (Or.inl (by decide)) (by decide)

end TacticalRadars

namespace MarketRadar

/-- The metric columns of `calculate_radar_metrics` consumed by the
candidate scorer (market_radar.py lines 372-391). -/
structure RadarMetrics where
  ticker : String
  roc_10d : ℚ
  rvol : ℚ
  above_sma50 : Bool
  above_sma200 : Bool
  breakout_up : Bool
  golden_cross : Bool
  deriving DecidableEq, Repr

/-- pandas `x.clip(lo, hi)`. -/
def clip (x lo hi : ℚ) : ℚ := min (max x lo) hi

theorem clip_bounds (x lo hi : ℚ) (h : lo ≤ hi) :
    lo ≤ clip x lo hi ∧ clip x lo hi ≤ hi :=
  ⟨le_min (le_max_right _ _) h, min_le_right _ _⟩

/-- `score_momentum` (market_radar.py line 568). -/
def score_momentum (m : RadarMetrics) : ℚ := clip m.roc_10d (-10) 25 * (7/10)

/-- `score_volume` (market_radar.py line 571). -/
def score_volume (m : RadarMetrics) : ℚ := clip (m.rvol - 1) 0 5 * 3

/-- `score_trend` (market_radar.py lines 574-577). -/
def score_trend (m : RadarMetrics) : ℚ :=
  (if m.above_sma50 then 1 else 0) * 10 + (if m.above_sma200 then 1 else 0) * 10

/-- `score_signals` (market_radar.py lines 580-583). -/
def score_signals (m : RadarMetrics) : ℚ :=
  (if m.breakout_up then 1 else 0) * 15 + (if m.golden_cross then 1 else 0) * 15

/-- `score_base` (market_radar.py lines 586-591). -/
def score_base (m : RadarMetrics) : ℚ :=
  clip (score_momentum m + score_volume m + score_trend m + score_signals m) 0 90

/-- The sentiment adjustment picked in `calculate_candidate_score`
(market_radar.py lines 545-553) from the fear/greed index value. -/
def sentiment_boost_of (sentiment_value : ℚ) : ℚ :=
  if sentiment_value < 25 then 10
  else if sentiment_value < 40 then 5
  else if sentiment_value > 75 then -10
  else if sentiment_value > 60 then -5
  else 0

/-- The `score` column of `calculate_candidate_score`
(market_radar.py line 594). -/
def candidate_score (m : RadarMetrics) (sentiment_boost : ℚ) : ℚ :=
  clip (score_base m + sentiment_boost) 0 100

/-- C4: the final candidate score is `clip(score_base + boost, 0, 100)`
with `score_base` itself clipped to [0, 90]; hence it lies in [0, 100]
for every metrics row and every sentiment boost. -/
theorem candidate_score_bounds (m : RadarMetrics) (boost : ℚ) :
    candidate_score m boost = clip (score_base m + boost) 0 100 ∧
    0 ≤ score_base m ∧ score_base m ≤ 90 ∧
    0 ≤ candidate_score m boost ∧ candidate_score m boost ≤ 100 := by
  obtain ⟨hb0, hb90⟩ := clip_bounds
    (score_momentum m + score_volume m + score_trend m + score_signals m) 0 90 (by norm_num)
  obtain ⟨hs0, hs100⟩ := clip_bounds (score_base m + boost) 0 100 (by norm_num)
  exact ⟨rfl, hb0, hb90, hs0, hs100⟩

/-- The confidence labels of `calculate_candidate_score`. -/
inductive Confianza
  | BAJA
  | MEDIA
  | ALTA
  deriving DecidableEq, Repr

/-- `pd.cut(score, bins=[0, 50, 70, 100], labels=[BAJA, MEDIA, ALTA])`
(market_radar.py lines 597-601).  With the pandas defaults
`right=True` and `include_lowest=False` the bins are the left-open
right-closed intervals (0,50], (50,70], (70,100]; a score on no bin
(in particular exactly 0) is mapped to NaN, modelled `none`. -/
def confianza_of (score : ℚ) : Option Confianza :=
  if 0 < score ∧ score ≤ 50 then some Confianza.BAJA
  else if 50 < score ∧ score ≤ 70 then some Confianza.MEDIA
  else if 70 < score ∧ score ≤ 100 then some Confianza.ALTA
  else none

/-- The tier map as the specification words it: LOW on [0,50),
MEDIUM on [50,70), HIGH on [70,100].  Stated only to be compared with
`confianza_of`, which is the code's map. -/
def confianza_claimed (score : ℚ) : Option Confianza :=
  if 0 ≤ score ∧ score < 50 then some Confianza.BAJA
  else if 50 ≤ score ∧ score < 70 then some Confianza.MEDIA
  else if 70 ≤ score ∧ score ≤ 100 then some Confianza.ALTA
  else none

/-- Counterexample to C5: at the boundary score 50 the code assigns
tier BAJA (LOW), while the claimed map assigns MEDIA (MEDIUM); the
claimed map also differs at score 0, where the code assigns no tier. -/
theorem confidence_tier_boundary_counterexample :
    confianza_of 50 = some Confianza.BAJA ∧
    confianza_claimed 50 = some Confianza.MEDIA ∧
    confianza_of 0 = none ∧
    confianza_claimed 0 = some Confianza.BAJA := by
  refine ⟨?_, ?_, ?_, ?_⟩ <;> simp [confianza_of, confianza_claimed] <;> norm_num

/-- C5 (amended): the tier is BAJA on (0,50], MEDIA on (50,70] and
ALTA on (70,100]; a score of exactly 0 receives no tier. -/
theorem confidence_tiers (s : ℚ) :
    (0 < s ∧ s ≤ 50 → confianza_of s = some Confianza.BAJA) ∧
    (50 < s ∧ s ≤ 70 → confianza_of s = some Confianza.MEDIA) ∧
    (70 < s ∧ s ≤ 100 → confianza_of s = some Confianza.ALTA) ∧
    confianza_of 0 = none := by
  refine ⟨fun h => ?_, fun h => ?_, fun h => ?_, by norm_num [confianza_of]⟩
  · unfold confianza_of
    rw [if_pos h]
  · unfold confianza_of
    rw [if_neg (fun hc => absurd hc.2 (not_le.mpr h.1)), if_pos h]
  · unfold confianza_of
    rw [if_neg (fun hc => absurd hc.2 (not_le.mpr (show (50:ℚ) < s by linarith [h.1]))),
      if_neg (fun hc => absurd hc.2 (not_le.mpr h.1)), if_pos h]

/-- Witness for C5 (amended) at scores 30, 60 and 80. -/
theorem confidence_tiers_witness :
    confianza_of 30 = some Confianza.BAJA ∧
    confianza_of 60 = some Confianza.MEDIA ∧
    confianza_of 80 = some Confianza.ALTA :=
  ⟨(confidence_tiers 30).1 (by norm_num), (confidence_tiers 60).2.1 (by norm_num),
   (confidence_tiers 80).2.2.1 (by norm_num)⟩

/-- `high.rolling(w).max().iloc[-2]` (market_radar.py line 353): the
w-bar rolling maximum evaluated at the second-to-last bar, `none`
(pandas NaN) while the window is not yet full. -/
def rolling_max_prev (w : Nat) (xs : List ℚ) : Option ℚ :=
  if w + 1 ≤ xs.length then
    ((xs.take (xs.length - 1)).drop (xs.length - 1 - w)).max?
  else none

/-- `low.rolling(w).min().iloc[-2]` (market_radar.py line 354). -/
def rolling_min_prev (w : Nat) (xs : List ℚ) : Option ℚ :=
  if w + 1 ≤ xs.length then
    ((xs.take (xs.length - 1)).drop (xs.length - 1 - w)).min?
  else none

/-- The `high_20` breakout reference (market_radar.py line 353). -/
def high_20 (highs : List ℚ) : Option ℚ := rolling_max_prev 20 highs

/-- The `low_20` breakout reference (market_radar.py line 354). -/
def low_20 (lows : List ℚ) : Option ℚ := rolling_min_prev 20 lows

/-- `breakout_up = latest_close > high_20` (market_radar.py line 356);
comparison with NaN is false. -/
def breakout_up (highs : List ℚ) (latest_close : ℚ) : Bool :=
  match high_20 highs with
  | some h => decide (latest_close > h)
  | none => false

/-- `breakout_down = latest_close < low_20` (market_radar.py line 357). -/
def breakout_down (lows : List ℚ) (latest_close : ℚ) : Bool :=
  match low_20 lows with
  | some l => decide (latest_close < l)
  | none => false

/-- C6: writing the high (resp. low) series as `highs ++ [a]`
(`lows ++ [a]`) with `a` the latest bar's value, the 20-bar rolling
maximum (resp. minimum) used for the breakout test is taken over the
last 20 elements of `highs` (`lows`) — bars t-20..t-1 — and does not
depend on bar t at all; the breakout tests themselves read only the
latest close, never the latest high or low. -/
theorem breakout_no_lookahead (highs lows : List ℚ) (a b c : ℚ)
    (hh : 20 ≤ highs.length) (hl : 20 ≤ lows.length) :
    (high_20 (highs ++ [a]) = (highs.drop (highs.length - 20)).max? ∧
      high_20 (highs ++ [a]) = high_20 (highs ++ [b]) ∧
      breakout_up (highs ++ [a]) c = breakout_up (highs ++ [b]) c) ∧
    (low_20 (lows ++ [a]) = (lows.drop (lows.length - 20)).min? ∧
      low_20 (lows ++ [a]) = low_20 (lows ++ [b]) ∧
      breakout_down (lows ++ [a]) c = breakout_down (lows ++ [b]) c) := by
  have hwin : ∀ x : ℚ, high_20 (highs ++ [x]) = (highs.drop (highs.length - 20)).max? := by
    intro x
    unfold high_20 rolling_max_prev
    have hlen : (highs ++ [x]).length = highs.length + 1 := by simp
    rw [hlen]
    rw [if_pos (by omega)]
    rw [Nat.add_sub_cancel, List.take_left' rfl]
  have lwin : ∀ x : ℚ, low_20 (lows ++ [x]) = (lows.drop (lows.length - 20)).min? := by
    intro x
    unfold low_20 rolling_min_prev
    have hlen : (lows ++ [x]).length = lows.length + 1 := by simp
    rw [hlen]
    rw [if_pos (by omega)]
    rw [Nat.add_sub_cancel, List.take_left' rfl]
  refine ⟨⟨hwin a, (hwin a).trans (hwin b).symm, ?_⟩,
    lwin a, (lwin a).trans (lwin b).symm, ?_⟩
  · unfold breakout_up
    rw [hwin a, hwin b]
  · unfold breakout_down
    rw [lwin a, lwin b]

/-- Witness for C6 on concrete 21-bar high and low series. -/
theorem breakout_no_lookahead_witness :
    (high_20 (List.replicate 20 (5:ℚ) ++ [7]) =
      ((List.replicate 20 (5:ℚ)).drop ((List.replicate 20 (5:ℚ)).length - 20)).max? ∧
      high_20 (List.replicate 20 (5:ℚ) ++ [7]) = high_20 (List.replicate 20 (5:ℚ) ++ [3]) ∧
      breakout_up (List.replicate 20 (5:ℚ) ++ [7]) 6 =
        breakout_up (List.replicate 20 (5:ℚ) ++ [3]) 6) ∧
    (low_20 (List.replicate 20 (4:ℚ) ++ [7]) =
      ((List.replicate 20 (4:ℚ)).drop ((List.replicate 20 (4:ℚ)).length - 20)).min? ∧
      low_20 (List.replicate 20 (4:ℚ) ++ [7]) = low_20 (List.replicate 20 (4:ℚ) ++ [3]) ∧
      breakout_down (List.replicate 20 (4:ℚ) ++ [7]) 6 =
        breakout_down (List.replicate 20 (4:ℚ) ++ [3]) 6) :=
  breakout_no_lookahead (List.replicate 20 (5:ℚ)) (List.replicate 20 (4:ℚ)) 7 3 6
    (by decide) (by decide)

end MarketRadar

namespace Svga

/-- One entry of the `alerts` list built by `generate_signals`
(svga_system.py): its `type` and `priority` fields; the free-text
`description` is presentation only and not modelled. -/
structure Alert where
  type : String
  priority : String
  deriving DecidableEq, Repr

/-- The values `generate_signals` (svga_system.py lines 200-212 and
240-319) reads from the indicator DataFrame: the latest and previous
rows (missing indicator columns are `none`, mirroring the `np.isnan` /
`.get` guards) and the three trailing means taken over the last 10
and 5 rows. -/
structure AssetInput where
  close : ℚ
  prev_close : ℚ
  ema_50 : Option ℚ
  ema_200 : Option ℚ
  adx : Option ℚ
  rsi : Option ℚ
  bbl : Option ℚ
  bbu : Option ℚ
  obv : Option ℚ
  macd_hist : Option ℚ
  prev_bbu : Option ℚ
  prev_bbl : Option ℚ
  prev_macd_hist : Option ℚ
  close_mean_10 : ℚ
  rsi_mean_10 : ℚ
  obv_mean_5 : ℚ
  deriving DecidableEq, Repr

/-- The mutable part of the `signals` dict while the cascade runs. -/
structure SignalState where
  long_term_trend : String
  market_regime : String
  alerts : List Alert
  signal : Int
  priority : String
  deriving DecidableEq, Repr

/-- Initial `signals` dict plus the two validation filters
(svga_system.py lines 204-238): long-term trend from EMA 50 vs EMA 200
and market regime from the ADX buckets. -/
def initState (a : AssetInput) : SignalState :=
  { long_term_trend :=
      (match a.ema_50, a.ema_200 with
        | some e50, some e200 => if e50 > e200 then "ALCISTA" else "BAJISTA"
        | _, _ => "INDEFINIDO")
    market_regime :=
      (match a.adx with
        | some adx =>
          if adx > 40 then "TENDENCIA_FUERTE"
          else if adx > 25 then "TENDENCIA_MODERADA"
          else if adx > 20 then "TENDENCIA_DEBIL"
          else "LATERAL"
        | none => "INDEFINIDO")
    alerts := []
    signal := 0
    priority := "LOW" }

/-- RSI divergence / overbought-oversold block
(svga_system.py lines 242-287). -/
def divergenceStep (a : AssetInput) (st : SignalState) : SignalState :=
  match a.rsi with
  | none => st
  | some r =>
    if r > 70 then
      if a.close > a.close_mean_10 ∧ r < a.rsi_mean_10 then
        { st with
            alerts := st.alerts ++ [⟨"DIVERGENCIA_BAJISTA", "HIGH"⟩]
            signal := -1
            priority := "HIGH" }
      else { st with alerts := st.alerts ++ [⟨"SOBRECOMPRA", "MEDIUM"⟩] }
    else if r < 30 then
      if a.close < a.close_mean_10 ∧ r > a.rsi_mean_10 then
        { st with
            alerts := st.alerts ++ [⟨"DIVERGENCIA_ALCISTA", "HIGH"⟩]
            signal := 1
            priority := "HIGH" }
      else { st with alerts := st.alerts ++ [⟨"SOBREVENTA", "MEDIUM"⟩] }
    else st

/-- Bollinger-band breakout confirmation block
(svga_system.py lines 289-319): the inner `if signals["signal"] == 0`
guard keeps a divergence signal from being overwritten. -/
def breakoutStep (a : AssetInput) (st : SignalState) : SignalState :=
  match a.bbl, a.bbu, a.obv with
  | some bbl, some bbu, some obv =>
    if a.close > bbu ∧ a.prev_close ≤ a.prev_bbu.getD bbu then
      if obv > a.obv_mean_5 then
        let st1 := { st with alerts := st.alerts ++ [⟨"RUPTURA_ALCISTA_CONFIRMADA", "HIGH"⟩] }
        if st1.signal = 0 then { st1 with signal := 1, priority := "HIGH" } else st1
      else st
    else if a.close < bbl ∧ a.prev_close ≥ a.prev_bbl.getD bbl then
      if obv < a.obv_mean_5 then
        let st1 := { st with alerts := st.alerts ++ [⟨"RUPTURA_BAJISTA_CONFIRMADA", "HIGH"⟩] }
        if st1.signal = 0 then { st1 with signal := -1, priority := "HIGH" } else st1
      else st
    else st
  | _, _, _ => st

/-- MACD histogram zero-cross block (svga_system.py lines 321-348). -/
def macdStep (a : AssetInput) (st : SignalState) : SignalState :=
  match a.macd_hist with
  | none => st
  | some h =>
    let prev_hist := a.prev_macd_hist.getD 0
    if h > 0 ∧ prev_hist ≤ 0 then
      let st1 := { st with alerts := st.alerts ++ [⟨"MACD_CRUCE_ALCISTA", "MEDIUM"⟩] }
      if st1.signal = 0 ∧ st1.market_regime ≠ "LATERAL" then { st1 with signal := 1 } else st1
    else if h < 0 ∧ prev_hist ≥ 0 then
      let st1 := { st with alerts := st.alerts ++ [⟨"MACD_CRUCE_BAJISTA", "MEDIUM"⟩] }
      if st1.signal = 0 ∧ st1.market_regime ≠ "LATERAL" then { st1 with signal := -1 } else st1
    else st

/-- Lateral-market damping block (svga_system.py lines 350-359): a
non-HIGH-priority directional signal is reset to 0. -/
def lateralStep (st : SignalState) : SignalState :=
  if st.market_regime = "LATERAL" then
    let st1 := { st with alerts := st.alerts ++ [⟨"MERCADO_LATERAL", "LOW"⟩] }
    if st1.signal.natAbs = 1 ∧ st1.priority ≠ "HIGH" then { st1 with signal := 0 } else st1
  else st

/-- Counter-trend warning block (svga_system.py lines 361-373): only
appends an alert, never changes the signal. -/
def counterTrendStep (st : SignalState) : SignalState :=
  if st.long_term_trend = "BAJISTA" ∧ st.signal = 1 then
    { st with alerts := st.alerts ++ [⟨"ALERTA_CONTRA_TENDENCIA", "MEDIUM"⟩] }
  else if st.long_term_trend = "ALCISTA" ∧ st.signal = -1 then
    { st with alerts := st.alerts ++ [⟨"ALERTA_CONTRA_TENDENCIA", "MEDIUM"⟩] }
  else st

/-- Terminal mapping of the signal (svga_system.py lines 375-381). -/
def recommendation_of (signal : Int) : String :=
  if signal = 1 then "COMPRAR" else if signal = -1 then "VENDER" else "MANTENER"

/-- The Signal Record `generate_signals` returns. -/
structure SignalRecord where
  long_term_trend : String
  market_regime : String
  alerts : List Alert
  signal : Int
  priority : String
  recommendation : String
  deriving DecidableEq, Repr

/-- `generate_signals` (svga_system.py lines 186-391): the full rule
cascade in source order, ending with the terminal recommendation and
the neutral `SIN_SENALES` fallback alert (lines 383-389). -/
def generate_signals (a : AssetInput) : SignalRecord :=
  let st := initState a
  let st := divergenceStep a st
  let st := breakoutStep a st
  let st := macdStep a st
  let st := lateralStep st
  let st := counterTrendStep st
  { long_term_trend := st.long_term_trend
    market_regime := st.market_regime
    alerts := if st.alerts = [] then [⟨"SIN_SENALES", "LOW"⟩] else st.alerts
    signal := st.signal
    priority := st.priority
    recommendation := recommendation_of st.signal }

theorem breakoutStep_signal_of_ne (a : AssetInput) (st : SignalState)
    (h : st.signal ≠ 0) :
    (breakoutStep a st).signal = st.signal ∧ (breakoutStep a st).priority = st.priority := by
  cases hb : a.bbl <;> cases hu : a.bbu <;> cases ho : a.obv <;>
    simp only [breakoutStep, hb, hu, ho] <;> (try split_ifs) <;> simp_all

theorem macdStep_signal_of_ne (a : AssetInput) (st : SignalState)
    (h : st.signal ≠ 0) :
    (macdStep a st).signal = st.signal ∧ (macdStep a st).priority = st.priority := by
  cases hm : a.macd_hist <;>
    simp only [macdStep, hm] <;> (try split_ifs) <;> simp_all

theorem lateralStep_of_high (st : SignalState) (h : st.priority = "HIGH") :
    (lateralStep st).signal = st.signal ∧ (lateralStep st).priority = st.priority := by
  simp only [lateralStep]
  split_ifs <;> simp_all

theorem counterTrendStep_signal (st : SignalState) :
    (counterTrendStep st).signal = st.signal ∧
    (counterTrendStep st).priority = st.priority := by
  simp only [counterTrendStep]
  split_ifs <;> simp

theorem divergenceStep_bearish (a : AssetInput) (st : SignalState) (r : ℚ)
    (hr : a.rsi = some r) (h70 : r > 70)
    (hp : a.close > a.close_mean_10) (hm : r < a.rsi_mean_10) :
    (divergenceStep a st).signal = -1 ∧ (divergenceStep a st).priority = "HIGH" := by
  simp only [divergenceStep, hr, if_pos h70, if_pos (And.intro hp hm)]
  exact ⟨trivial, trivial⟩

theorem divergenceStep_bullish (a : AssetInput) (st : SignalState) (r : ℚ)
    (hr : a.rsi = some r) (h30 : r < 30)
    (hp : a.close < a.close_mean_10) (hm : r > a.rsi_mean_10) :
    (divergenceStep a st).signal = 1 ∧ (divergenceStep a st).priority = "HIGH" := by
  have h70 : ¬ r > 70 := by linarith
  simp only [divergenceStep, hr, if_neg h70, if_pos h30, if_pos (And.intro hp hm)]
  exact ⟨trivial, trivial⟩

/-- C7: when the latest bar triggers the RSI divergence branch, the
final Signal Record keeps the divergence signal (-1 bearish, +1
bullish) at HIGH priority regardless of the breakout and later blocks;
and the breakout block never changes an already non-zero signal. -/
theorem divergence_takes_precedence (a : AssetInput) (r : ℚ) (st : SignalState)
    (hr : a.rsi = some r) :
    (r > 70 → a.close > a.close_mean_10 → r < a.rsi_mean_10 →
      (generate_signals a).signal = -1 ∧ (generate_signals a).priority = "HIGH") ∧
    (r < 30 → a.close < a.close_mean_10 → r > a.rsi_mean_10 →
      (generate_signals a).signal = 1 ∧ (generate_signals a).priority = "HIGH") ∧
    (st.signal ≠ 0 → (breakoutStep a st).signal = st.signal) := by
  have chain : ∀ s : Int, s ≠ 0 →
      (divergenceStep a (initState a)).signal = s →
      (divergenceStep a (initState a)).priority = "HIGH" →
      (generate_signals a).signal = s ∧ (generate_signals a).priority = "HIGH" := by
    intro s hs hsig hpri
    have h1 := breakoutStep_signal_of_ne a (divergenceStep a (initState a))
      (by rw [hsig]; exact hs)
    have h2 := macdStep_signal_of_ne a (breakoutStep a (divergenceStep a (initState a)))
      (by rw [h1.1, hsig]; exact hs)
    have h3 := lateralStep_of_high
      (macdStep a (breakoutStep a (divergenceStep a (initState a))))
      (by rw [h2.2, h1.2, hpri])
    have h4 := counterTrendStep_signal
      (lateralStep (macdStep a (breakoutStep a (divergenceStep a (initState a)))))
    constructor
    · show (counterTrendStep (lateralStep (macdStep a (breakoutStep a
        (divergenceStep a (initState a)))))).signal = s
      rw [h4.1, h3.1, h2.1, h1.1, hsig]
    · show (counterTrendStep (lateralStep (macdStep a (breakoutStep a
        (divergenceStep a (initState a)))))).priority = "HIGH"
      rw [h4.2, h3.2, h2.2, h1.2, hpri]
  refine ⟨?_, ?_, fun h => (breakoutStep_signal_of_ne a st h).1⟩
  · intro h70 hp hm
    obtain ⟨hsig, hpri⟩ := divergenceStep_bearish a (initState a) r hr h70 hp hm
    exact chain (-1) (by decide) hsig hpri
  · intro h30 hp hm
    obtain ⟨hsig, hpri⟩ := divergenceStep_bullish a (initState a) r hr h30 hp hm
    exact chain 1 (by decide) hsig hpri

/-- The asset used to witness C7: its latest bar satisfies both the
bearish-divergence condition (RSI 80 above 70, price above its 10-bar
mean, RSI below its 10-bar mean) and the bullish breakout-confirmation
condition (close above the upper band, previous close below the
previous band, OBV above its 5-bar mean). -/
def divergenceAsset : AssetInput :=
  { close := 110, prev_close := 100,
    ema_50 := some 10, ema_200 := some 5,
    adx := some 30, rsi := some 80,
    bbl := some 90, bbu := some 105, obv := some 50,
    macd_hist := some 1, prev_bbu := some 104, prev_bbl := some 91,
    prev_macd_hist := some 1,
    close_mean_10 := 100, rsi_mean_10 := 90, obv_mean_5 := 40 }

/-- Witness for C7 at `divergenceAsset` and at a state carrying a
non-zero signal. -/
theorem divergence_takes_precedence_witness :
    ((generate_signals divergenceAsset).signal = -1 ∧
      (generate_signals divergenceAsset).priority = "HIGH") ∧
    (breakoutStep divergenceAsset ⟨"ALCISTA", "LATERAL", [], -1, "HIGH"⟩).signal =
      (⟨"ALCISTA", "LATERAL", [], -1, "HIGH"⟩ : SignalState).signal :=
  ⟨(divergence_takes_precedence divergenceAsset 80
      ⟨"ALCISTA", "LATERAL", [], -1, "HIGH"⟩ rfl).1
    (by decide) (by decide) (by decide),
   (divergence_takes_precedence divergenceAsset 80
      ⟨"ALCISTA", "LATERAL", [], -1, "HIGH"⟩ rfl).2.2 (by decide)⟩

/-- C8: the alert list of every Signal Record produced by
`generate_signals` is non-empty — when no alert fired, the neutral
`SIN_SENALES` alert is appended before the record is returned. -/
theorem alerts_nonempty (a : AssetInput) : (generate_signals a).alerts ≠ [] := by
  unfold generate_signals
  dsimp only
  split_ifs with h
  · simp
  · exact h

end Svga

namespace Alertas

/-- The anomaly record appended by `_detectar_volatilidad_anormal`
(alertas_avanzadas.py lines 95-106): its type, severity and the
estimated increase it reports. -/
structure Anomalia where
  tipo : String
  severidad : String
  aumento_pct : ℚ
  deriving DecidableEq, Repr

/-- `_detectar_volatilidad_anormal` (alertas_avanzadas.py lines
81-106), as a function of the `atr_percent` metric: fires only when
`atr_percent > 5.0`; the estimated increase over the 3.0 baseline is
`((atr_percent - 3.0) / 3.0) * 100`, the `> 25` gate guards the
append, and severity is ALTA when the increase exceeds 50, MEDIA
otherwise. -/
def detectar_volatilidad_anormal (atr_percent : ℚ) : List Anomalia :=
  if atr_percent > 5 then
    let aumento_pct := ((atr_percent - 3) / 3) * 100
    if aumento_pct > 25 then
      [{ tipo := "VOLATILIDAD_AUMENTADA"
         severidad := if aumento_pct > 50 then "ALTA" else "MEDIA"
         aumento_pct := aumento_pct }]
    else []
  else []

/-- C10: whenever the volatility detector fires (`atr_percent > 5`)
the estimated increase `((atr_percent - 3) / 3) * 100` exceeds 50, so
the emitted anomaly always has severity ALTA; the MEDIA branch and
the 25-percent gate can never reject. -/
theorem volatility_spike_always_high (atr_percent : ℚ) (an : Anomalia) :
    (atr_percent > 5 →
      ((atr_percent - 3) / 3) * 100 > 50 ∧
      detectar_volatilidad_anormal atr_percent =
        [⟨"VOLATILIDAD_AUMENTADA", "ALTA", ((atr_percent - 3) / 3) * 100⟩]) ∧
    (an ∈ detectar_volatilidad_anormal atr_percent →
      an.severidad = "ALTA" ∧ an.aumento_pct > 50) := by
  constructor
  · intro h5
    have h50 : ((atr_percent - 3) / 3) * 100 > 50 := by
      rw [gt_iff_lt, show ((atr_percent - 3) / 3) * 100 = (atr_percent - 3) * (100/3) by ring]
      linarith
    refine ⟨h50, ?_⟩
    simp only [detectar_volatilidad_anormal]
    rw [if_pos h5, if_pos (by linarith : ((atr_percent - 3) / 3) * 100 > 25), if_pos h50]
  · intro han
    simp only [detectar_volatilidad_anormal] at han
    split_ifs at han with h5 h25 h50
    · rw [List.mem_singleton] at han
      subst han
      exact ⟨rfl, h50⟩
    · exfalso
      apply h50
      rw [gt_iff_lt, show ((atr_percent - 3) / 3) * 100 = (atr_percent - 3) * (100/3) by ring]
      linarith
    · exact absurd han (List.not_mem_nil _)
    · exact absurd han (List.not_mem_nil _)

/-- Witness for C10 at `atr_percent = 6`. -/
theorem volatility_spike_always_high_witness :
    ((((6:ℚ) - 3) / 3) * 100 > 50 ∧
      detectar_volatilidad_anormal 6 =
        [⟨"VOLATILIDAD_AUMENTADA", "ALTA", (((6:ℚ) - 3) / 3) * 100⟩]) ∧
    ((⟨"VOLATILIDAD_AUMENTADA", "ALTA", (((6:ℚ) - 3) / 3) * 100⟩ : Anomalia).severidad =
        "ALTA" ∧
      (⟨"VOLATILIDAD_AUMENTADA", "ALTA", (((6:ℚ) - 3) / 3) * 100⟩ : Anomalia).aumento_pct >
        50) := by
  have h1 := (volatility_spike_always_high 6
    ⟨"VOLATILIDAD_AUMENTADA", "ALTA", (((6:ℚ) - 3) / 3) * 100⟩).1 (by norm_num)
  have h2 := (volatility_spike_always_high 6
    ⟨"VOLATILIDAD_AUMENTADA", "ALTA", (((6:ℚ) - 3) / 3) * 100⟩).2
    (by rw [h1.2]; exact List.mem_singleton.mpr rfl)
  exact ⟨h1, h2⟩

end Alertas
